import Mathlib

/-!
Shallow embedding of the AnADAMA workflow engine (`anadama/workflow.py`,
`anadama/slurm.py`, `anadama2/grid/grid.py`, `anadama2/grid/lsf.py`) and
proofs about its registration, skipping, result-handling and grid-retry
logic.  Python integers are modelled as `Nat`, Python strings as `String`,
Python `None`-able strings as `Option String`, and filesystem facts (such
as `Tracked.exists()`) are carried as fields of the embedded values.
-/

namespace anadama

/-- A tracked (non-task) object, as used by `anadama.tracked`.  The
`exists_fs` field records the answer the object's `.exists()` call would
give, and `compare_seq` the sequence its `.compare()` call would give;
both are filesystem facts carried as data. -/
structure Trk where
  key : String
  must_preexist : Bool
  exists_fs : Bool
  compare_seq : List String
deriving DecidableEq, Repr

/-- A dependency as accepted by `Workflow._add_task`: either another task
(`istask`) or a tracked object. -/
inductive Dep where
  | task (task_no : Nat)
  | trk (t : Trk)
deriving DecidableEq, Repr

/-- `anadama.Task`: name, number, dependencies and targets.  Targets are
tracked objects only (`_build_targets` refuses tasks as targets). -/
structure Task where
  name : String
  task_no : Nat
  depends : List Dep
  targets : List Trk
deriving DecidableEq, Repr

/-- The mutable registration state of `anadama.workflow.Workflow`:
the task counter, the task list, the networkx DAG (nodes and edges) and
the `DependencyIndex` (modelled from the spec: a mapping from
tracked-object key to the producing task number; `tracked.py` itself is
not among the sources). -/
structure Workflow where
  task_counter : Nat
  tasks : List Task
  dagNodes : List Nat
  dagEdges : List (Nat × Nat)
  depidx : List (String × Nat)
  strict : Bool
deriving DecidableEq, Repr

/-- Lookup in the `DependencyIndex`: first (most recent) binding of a key
wins, matching dict-overwrite semantics of `link`. -/
def lookupKey (idx : List (String × Nat)) (k : String) : Option Nat :=
  (idx.find? (fun p => p.1 == k)).map Prod.snd

/-- `Workflow.already_exists` for a single tracked object: registers a
no-op task named "Track pre-existing dependencies" whose only target is
the object, and links the object's key to that task. -/
def already_exists (wf : Workflow) (t : Trk) : Workflow :=
  let n := wf.task_counter
  { wf with
      task_counter := n + 1,
      tasks := wf.tasks ++ [{ name := "Track pre-existing dependencies",
                              task_no := n, depends := [], targets := [t] }],
      dagNodes := wf.dagNodes ++ [n],
      depidx := (t.key, n) :: wf.depidx }

/-- `Workflow._handle_nosuchdep`: pop the last task from the task list,
remove the node (with its incident edges) from the DAG, and raise a
`KeyError`.  The fuzzy-match suggestion appended by `util.matcher` is not
part of the sources; the message here keeps only the fixed text. -/
def handle_nosuchdep (wf : Workflow) (t : Trk) (task_no : Nat) :
    Workflow × Option String :=
  ({ wf with
      tasks := wf.tasks.dropLast,
      dagNodes := wf.dagNodes.erase task_no,
      dagEdges := wf.dagEdges.filter (fun e => !(e.1 == task_no || e.2 == task_no)) },
   some ("Unable to find dependency `" ++ t.key ++ "'"))

/-- The dependency loop of `Workflow._add_task`: for each dependency in
order, add an edge from its producer, auto-register existing unknown
objects in non-strict mode, or fail through `_handle_nosuchdep`.  The
returned state is the state left behind even when an error is raised. -/
def resolve_deps (wf : Workflow) (task_no : Nat) :
    List Dep → Workflow × Option String
  | [] => (wf, none)
  | Dep.task n :: rest =>
    resolve_deps { wf with dagEdges := wf.dagEdges ++ [(n, task_no)] } task_no rest
  | Dep.trk t :: rest =>
    match lookupKey wf.depidx t.key with
    | some p =>
      resolve_deps { wf with dagEdges := wf.dagEdges ++ [(p, task_no)] } task_no rest
    | none =>
      if t.must_preexist = false then
        resolve_deps wf task_no rest
      else if !wf.strict && t.exists_fs then
        let wf' := already_exists wf t
        resolve_deps { wf' with dagEdges := wf'.dagEdges ++ [(wf.task_counter, task_no)] }
          task_no rest
      else
        handle_nosuchdep wf t task_no

/-- `_build_name`: a falsy name (Python `None` or `""`) is replaced by
"Step <task_no>". -/
def build_name (name : Option String) (task_no : Nat) : String :=
  match name with
  | none => "Step " ++ toString task_no
  | some s => if s.isEmpty then "Step " ++ toString task_no else s

/-- `Workflow.add_task` after action/dependency/target normalisation,
followed by `_add_task`: draw a task number, build the name, append the
task and its DAG node, resolve dependencies, and on success link every
target into the `DependencyIndex`.  Returns the state left behind, the
created task (on success) and the raised error (on failure). -/
def add_task_named (wf : Workflow) (name : Option String) (deps : List Dep)
    (targs : List Trk) : Workflow × Option Task × Option String :=
  let task_no := wf.task_counter
  let task : Task := { name := build_name name task_no, task_no := task_no,
                       depends := deps, targets := targs }
  let wf1 : Workflow :=
    { wf with task_counter := task_no + 1,
              tasks := wf.tasks ++ [task],
              dagNodes := wf.dagNodes ++ [task_no] }
  match resolve_deps wf1 task_no deps with
  | (wf2, some err) => (wf2, none, some err)
  | (wf2, none) =>
    ({ wf2 with depidx := targs.foldl (fun idx tg => (tg.key, task_no) :: idx) wf2.depidx },
     some task, none)

/-- The skip-filter guard on line 344 of `workflow.py`:
`if not run_them_all or not self.vars.get("run_them_all")`. -/
def go_applies_skip_filter (run_them_all vars_run_them_all : Bool) : Bool :=
  !run_them_all || !vars_run_them_all

/-- The tail of `Workflow.go`: candidate task indices are either passed
through `_filter_skipped_tasks` (whose should-run verdict is the
`should_run` parameter; skipped indices are reported skipped) or handed
to the runner unfiltered.  Returns (handed to runner, reported skipped). -/
def go_plan (task_idxs : List Nat) (should_run : Nat → Bool)
    (run_them_all vars_run_them_all : Bool) : List Nat × List Nat :=
  if go_applies_skip_filter run_them_all vars_run_them_all then
    (task_idxs.filter should_run, task_idxs.filter (fun i => !should_run i))
  else
    (task_idxs, [])

/-- `anadama.runners.TaskResult` (also `anadama2.runners.TaskResult`):
task number (may be Python `None`), error (empty/`None` means success),
and the dependency keys/compares saved on success. -/
structure TaskResult where
  task_no : Option Nat
  error : Option String
  dep_keys : List String
  dep_compares : List (List String)
deriving DecidableEq, Repr

/-- Python truthiness of an optional string: `None` and `""` are falsy. -/
def pyTruthyOpt : Option String → Bool
  | none => false
  | some s => !s.isEmpty

/-- Python `str(x)` for an optional string: `str(None)` is `"None"`. -/
def pyStrOpt : Option String → String
  | none => "None"
  | some s => s

/-- A reporter event, as dispatched by the `Workflow._handle_*` methods. -/
inductive Event where
  | task_failed (r : TaskResult)
  | task_completed (r : TaskResult)
  | task_skipped (task_no : Nat)
deriving DecidableEq, Repr

/-- The run-phase state touched by `Workflow._handle_task_result` and
`Workflow._handle_task_skipped`: the frozen task list and dependency
index, the fingerprint backend (as the list of `save` calls made to it),
the completed/failed sets (as lists; members are optional numbers because
`result.task_no` can be `None`), the result slots, the reporter events,
and the log of task numbers whose actions were executed. -/
structure RunState where
  tasks : List Task
  depidx : List (String × Nat)
  backendSaves : List (List String × List (List String))
  completed_tasks : List (Option Nat)
  failed_tasks : List (Option Nat)
  task_results : List (Option TaskResult)
  events : List Event
  actions_executed : List Nat
deriving DecidableEq, Repr

/-- Key of a non-task dependency (used for `d not in self._depidx`). -/
def depKey : Dep → String
  | Dep.task n => toString n
  | Dep.trk t => t.key

/-- Compare sequence of a non-task dependency. -/
def depCompare : Dep → List String
  | Dep.task _ => []
  | Dep.trk t => t.compare_seq

/-- `util.istask` restricted to our dependency type. -/
def istask : Dep → Bool
  | Dep.task _ => true
  | Dep.trk _ => false

/-- `self.tasks[task_no]`, modelled from the spec: the task container is
indexed by the (unique) task number. -/
def findTask (tasks : List Task) (n : Nat) : Option Task :=
  tasks.find? (fun t => t.task_no == n)

/-- `Workflow._handle_task_result`: store the result slot; on error add to
the failed set and report failure; otherwise save the result's keys and
compares to the backend, add to the completed set, report completion, and
additionally save any of the task's pre-existing dependencies that are
not linked in the `DependencyIndex`. -/
def handle_task_result (st : RunState) (result : TaskResult) : RunState :=
  let st :=
    match result.task_no with
    | some n => { st with task_results := st.task_results.set n (some result) }
    | none => st
  if pyTruthyOpt result.error then
    { st with failed_tasks := st.failed_tasks ++ [result.task_no],
              events := st.events ++ [Event.task_failed result] }
  else
    let st := { st with
      backendSaves := st.backendSaves ++ [(result.dep_keys, result.dep_compares)],
      completed_tasks := st.completed_tasks ++ [result.task_no],
      events := st.events ++ [Event.task_completed result] }
    let pxdeps :=
      match result.task_no with
      | some n =>
        match findTask st.tasks n with
        | some task =>
          task.depends.filter
            (fun d => !istask d && (lookupKey st.depidx (depKey d)).isNone)
        | none => []
      | none => []
    if pxdeps.isEmpty then st
    else { st with backendSaves :=
            st.backendSaves ++ [(pxdeps.map depKey, pxdeps.map depCompare)] }

/-- `Workflow._handle_task_skipped`: add the task to the completed set and
report it skipped. -/
def handle_task_skipped (st : RunState) (task_no : Nat) : RunState :=
  { st with completed_tasks := st.completed_tasks ++ [some task_no],
            events := st.events ++ [Event.task_skipped task_no] }

/-- A raw Python value appearing in the `actions`, `depends` or `targets`
arguments of `Workflow.add_task`: `None`, a string, a callable, or a task
reference. -/
inductive PyV where
  | pynone
  | pystr (s : String)
  | pyfn (id : Nat)
  | pytask (task_no : Nat)
deriving DecidableEq, Repr

/-- Python truthiness of a raw value: `None` and `""` are falsy. -/
def pyvTruthy : PyV → Bool
  | PyV.pynone => false
  | PyV.pystr s => !s.isEmpty
  | PyV.pyfn _ => true
  | PyV.pytask _ => true

/-- An argument to `add_task`: either a single (scalar) value or a list. -/
inductive PyArg where
  | scalar (v : PyV)
  | pylist (vs : List PyV)
deriving DecidableEq, Repr

/-- Python truthiness of an argument: a scalar is truthy iff the value is,
a list iff it is non-empty. -/
def pyArgTruthy : PyArg → Bool
  | PyArg.scalar v => pyvTruthy v
  | PyArg.pylist vs => !vs.isEmpty

/-- Modelled from the spec: `anadama.util.sugar_list` is not among the
sources; per the `add_task` docstring a non-list argument is treated as a
one-item list of that argument. -/
def sugar_list : PyArg → List PyV
  | PyArg.scalar v => [v]
  | PyArg.pylist vs => vs

/-- An action unit held by a task: a callable or a shell command. -/
inductive ActionU where
  | func (id : Nat)
  | shell (cmd : String)
deriving DecidableEq, Repr

/-- `_build_actions`: drop falsy elements, then turn each survivor into an
action unit (callables kept, everything else through `sh`/`parse_sh`). -/
def build_actions (actions : PyArg) : List ActionU :=
  ((sugar_list actions).filter pyvTruthy).map fun v =>
    match v with
    | PyV.pyfn i => ActionU.func i
    | PyV.pystr s => ActionU.shell s
    | PyV.pynone => ActionU.shell ""
    | PyV.pytask n => ActionU.shell (toString n)

/-- Modelled from the spec: `tracked.auto` is not among the sources; it
turns a string into a file-tracked object and keeps task references as
task dependencies. -/
def auto : PyV → Dep
  | PyV.pystr s => Dep.trk { key := s, must_preexist := true,
                             exists_fs := false, compare_seq := [] }
  | PyV.pyfn i => Dep.trk { key := "fn:" ++ toString i, must_preexist := true,
                            exists_fs := false, compare_seq := [] }
  | PyV.pytask n => Dep.task n
  | PyV.pynone => Dep.trk { key := "", must_preexist := true,
                            exists_fs := false, compare_seq := [] }

/-- `_build_depends`: drop falsy elements, then `tracked.auto` each. -/
def build_depends (depends : PyArg) : List Dep :=
  ((sugar_list depends).filter pyvTruthy).map auto

/-- Whether a raw value is a task reference (`util.istask`). -/
def rawIstask : PyV → Bool
  | PyV.pytask _ => true
  | _ => false

/-- `_build_targets`: drop falsy elements, refuse task references
(`ValueError("Can't make a task a target")`), and `tracked.auto` each. -/
def build_targets (targets : PyArg) : Except String (List Dep) :=
  let ts := (sugar_list targets).filter pyvTruthy
  if ts.any rawIstask then Except.error "Can't make a task a target"
  else Except.ok (ts.map auto)

/-- The outcome of the entry portion of `Workflow.add_task`: either a
decorator (returned when the `actions` argument is falsy) or the
normalised pieces a `Task` is then built from. -/
inductive AddTaskOutcome where
  | decorator
  | made (acts : List ActionU) (deps : List Dep) (targs : List Dep)
deriving DecidableEq, Repr

/-- The entry portion of `Workflow.add_task`: build dependencies and
targets, then either return a decorator (falsy `actions`) or build the
action list and construct the task. -/
def add_task_outcome (actions depends targets : PyArg) :
    Except String AddTaskOutcome :=
  let deps := build_depends depends
  match build_targets targets with
  | Except.error e => Except.error e
  | Except.ok targs =>
    if !pyArgTruthy actions then Except.ok AddTaskOutcome.decorator
    else Except.ok (AddTaskOutcome.made (build_actions actions) deps targs)

end anadama

namespace anadama2

open anadama (TaskResult pyStrOpt)

/-- Python `str.isdigit` over ASCII: non-empty and all characters digits. -/
def pyIsdigit (s : String) : Bool :=
  !s.isEmpty && s.data.all Char.isDigit

/-- `GridQueue.job_submission_failed`:
`True if not jobid.isdigit() else False`. -/
def job_submission_failed (jobid : String) : Bool :=
  if !pyIsdigit jobid then true else false

/-- `GridQueue.timeout_retry_max` (set in `GridQueue.__init__`). -/
def timeout_retry_max : Nat := 3

/-- Number of times `GridQueue.run_grid_command_resubmit` invokes
`run_grid_command`, given whether the first invocation reports a
socket-timeout error: the body retries with an `if` (not a loop), so a
single retry happens when `resubmissions < timeout_retry_max`. -/
def run_grid_command_resubmit_runs (timeout_error : Bool) : Nat :=
  let resubmissions := 0
  if timeout_error && decide (resubmissions < timeout_retry_max) then 2 else 1

/-- The resubmission loop of `GridWorker.run_task_command`:
`while (job_timeout(s) or job_memkill(s)) and resubmission < 3`, where
`retryable k` tells whether the final status after the k-th submission is
a timeout or memory kill.  Returns the final `resubmission` counter. -/
def grid_resubmit_loop (retryable : Nat → Bool) (resubmission : Nat) : Nat :=
  if h : retryable resubmission = true ∧ resubmission < 3 then
    grid_resubmit_loop retryable (resubmission + 1)
  else
    resubmission
termination_by 3 - resubmission
decreasing_by omega

/-- Python `str.startswith`, modelled on character lists. -/
def pyStartswith (s pre : String) : Bool :=
  pre.data.isPrefixOf s.data

/-- `GridQueue.get_all_stats_for_jobid`: filter the cached queue status
for rows whose job id starts with `jobid`; if none match, return the
single sentinel row `[jobid, "Waiting", "NA", "NA", "NA"]`. -/
def get_all_stats_for_jobid (sacct : List (List String)) (jobid : String) :
    List (List String) :=
  if (sacct.filter (fun x => pyStartswith (x.headD "") jobid)).isEmpty then
    [[jobid, "Waiting", "NA", "NA", "NA"]]
  else
    sacct.filter (fun x => pyStartswith (x.headD "") jobid)

/-- `GridQueue.get_job_status`: the second field of the first row returned
by `get_all_stats_for_jobid`. -/
def get_job_status (sacct : List (List String)) (jobid : String) : String :=
  ((get_all_stats_for_jobid sacct jobid).headD []).getD 1 ""

/-- `GridWorker.check_submission_then_monitor_grid_job`: when submission
did not fail, enter `monitor_grid_job` (outcome abstracted as the
`monitor` argument); otherwise produce status "SUBMIT FAILED" and append
`"Unable to submit job to queue."` to the task result's error.  The third
component records whether the polling loop was entered. -/
def check_submission_then_monitor (monitor : TaskResult × String)
    (base_result : TaskResult) (grid_jobid : String) :
    TaskResult × String × Bool :=
  if !job_submission_failed grid_jobid then
    (monitor.1, monitor.2, true)
  else
    ({ base_result with
        error := some (pyStrOpt base_result.error ++ "Unable to submit job to queue.") },
     "SUBMIT FAILED", false)

/-- The final status `run_task_command` sees after its k-th submission:
"SUBMIT FAILED" when the returned job id is non-numeric, otherwise the
status produced by the monitoring loop. -/
def final_status_of (jobidOf : Nat → String) (monStatus : Nat → String)
    (k : Nat) : String :=
  if !job_submission_failed (jobidOf k) then monStatus k else "SUBMIT FAILED"

/-- Total number of `submit_grid_job` calls made by
`GridWorker.run_task_command`: the initial submission plus the
resubmission-loop iterations driven by the scheduler's timeout/memkill
classification of each submission's final status. -/
def run_task_command_submissions (jobidOf : Nat → String)
    (monStatus : Nat → String) (timeoutP memkillP : String → Bool) : Nat :=
  grid_resubmit_loop
    (fun k => timeoutP (final_status_of jobidOf monStatus k)
              || memkillP (final_status_of jobidOf monStatus k)) 0 + 1

end anadama2

namespace lsf

/-- `LSFQueue.job_code_completed`. -/
def job_code_completed : String := "DONE"

/-- `LSFQueue.job_code_error` (also the terminated and deleted codes). -/
def job_code_error : String := "EXIT"

/-- `LSFQueue.all_failed_codes = [error, terminated, deleted]`. -/
def all_failed_codes : List String := [job_code_error, job_code_error, job_code_error]

/-- `LSFQueue.all_stopped_codes = [completed] + all_failed_codes`. -/
def all_stopped_codes : List String := job_code_completed :: all_failed_codes

/-- `LSFQueue.job_failed`: `True if status in self.all_failed_codes`. -/
def job_failed (status : String) : Bool :=
  if status ∈ all_failed_codes then true else false

/-- `LSFQueue.job_stopped`: `True if status in self.all_stopped_codes`. -/
def job_stopped (status : String) : Bool :=
  if status ∈ all_stopped_codes then true else false

/-- The status field `LSFQueue.refresh_queue_status` produces for one
tab-split `bjobs` line: `"EXIT:" + exit_reason` when the state column
reads `EXIT`, else the state column itself. -/
def refresh_row_status (linesp : List String) : String :=
  if linesp.getD 2 "" = "EXIT" then "EXIT:" ++ linesp.getD 6 ""
  else linesp.getD 2 ""

end lsf

namespace slurm

/-- The `sigmoid` lambda of `anadama/slurm.py`: `1/(1-exp(-t))`. -/
noncomputable def sigmoid (t : ℝ) : ℝ := 1 / (1 - Real.exp (-t))

/-- The wall-time escalation factor applied by `_run_task_slurm` on try
number `tries` when srun's output matches "due to time limit":
`time = time * (sigmoid(tries/10.)*2.7)`. -/
noncomputable def slurm_time_factor (tries : ℕ) : ℝ :=
  sigmoid ((tries : ℝ) / 10) * 2.7

/-- The retry loop of `_run_task_slurm`: `for tries in itertools.count(1)`
with srun re-invoked until an iteration sets `rerun = False`.  `rerun t`
tells whether the output of submission number `t` reports a memory- or
time-limit kill.  `fuel` bounds the modelled unrolling; `some t` means the
loop exits after submission `t`, `none` that it was still looping. -/
def slurm_retry_loop (rerun : Nat → Bool) (tries fuel : Nat) : Option Nat :=
  match fuel with
  | 0 => none
  | fuel + 1 =>
    if rerun tries then slurm_retry_loop rerun (tries + 1) fuel
    else some tries

end slurm

namespace examples

/-- An empty workflow in strict mode. -/
def wfStrict : anadama.Workflow :=
  { task_counter := 0, tasks := [], dagNodes := [], dagEdges := [],
    depidx := [], strict := true }

/-- An empty workflow in non-strict mode. -/
def wfNonstrict : anadama.Workflow :=
  { task_counter := 0, tasks := [], dagNodes := [], dagEdges := [],
    depidx := [], strict := false }

/-- An unknown dependency that does not exist on disk. -/
def depMissing : anadama.Dep :=
  anadama.Dep.trk { key := "missing", must_preexist := true,
                    exists_fs := false, compare_seq := [] }

/-- An unknown dependency that does exist on disk, so non-strict
resolution auto-registers it through `already_exists`. -/
def depOnDisk : anadama.Dep :=
  anadama.Dep.trk { key := "on_disk.txt", must_preexist := true,
                    exists_fs := true, compare_seq := [] }

/-- The workflow after registering one task named "A". -/
def wfA : anadama.Workflow :=
  (anadama.add_task_named wfStrict (some "A") [] []).1

/-- A small run state with a single empty result slot. -/
def st0 : anadama.RunState :=
  { tasks := [], depidx := [], backendSaves := [], completed_tasks := [],
    failed_tasks := [], task_results := [none], events := [],
    actions_executed := [] }

/-- A result carrying an error. -/
def failedResult : anadama.TaskResult :=
  { task_no := some 0, error := some "exited with 1", dep_keys := [],
    dep_compares := [] }

/-- A result without error. -/
def okResult : anadama.TaskResult :=
  { task_no := some 0, error := none, dep_keys := ["out.txt"],
    dep_compares := [["123"]] }

/-- A cached queue status with one running job. -/
def sacctExample : List (List String) :=
  [["1234", "RUNNING", "4", "10", "2048K"]]

/-- An arbitrary outcome for the (not entered) monitoring loop. -/
def monitorOutcome : anadama.TaskResult × String :=
  ({ task_no := some 0, error := none, dep_keys := [], dep_compares := [] },
   "DONE")

end examples

/-- C1: `Workflow.go` evaluates
`if not run_them_all or not self.vars.get("run_them_all")`, so with the
keyword `run_them_all=True` but the configuration variable left at its
false default the guard is still true: the skip filter runs, and a
candidate task whose fingerprints are unchanged is reported skipped and
withheld from the runner. -/
theorem go_run_them_all_still_filters :
    anadama.go_applies_skip_filter true false = true ∧
    anadama.go_plan [0] (fun _ => false) true false = ([], [0]) := by
  decide

/-- The resubmission counter of `GridWorker.run_task_command` never
exceeds 3, whatever the scheduler reports (helper, by descending fuel). -/
theorem grid_resubmit_loop_le_aux (f : Nat → Bool) :
    ∀ (n r : Nat), 3 - r ≤ n → r ≤ 3 → anadama2.grid_resubmit_loop f r ≤ 3 := by
  intro n
  induction n with
  | zero =>
    intro r h1 h2
    have hr : r = 3 := by omega
    subst hr
    unfold anadama2.grid_resubmit_loop
    rw [dif_neg (by simp)]
  | succ n ih =>
    intro r h1 h2
    unfold anadama2.grid_resubmit_loop
    split
    · next hcond => exact ih (r + 1) (by omega) (by omega)
    · exact h2

/-- C2 (counterexample): the retry loop of `_run_task_slurm` has no
resubmission cap — when the first four srun invocations all report a
time-limit kill, the task is submitted five times, i.e. resubmitted four
times, exceeding the claimed bound of 3. -/
theorem slurm_retry_exceeds_three_resubmissions :
    slurm.slurm_retry_loop (fun t => decide (t ≤ 4)) 1 10 = some 5 ∧
    3 < 5 - 1 := by
  decide

/-- C2 (amended): the anadama2 grid retry mechanisms are bounded: a
scheduler client command that hits a socket timeout is re-run at most
once more (so at most 3 runs in total), and the grid worker's
time/memory-exhaustion resubmission loop iterates at most 3 times,
whatever statuses the scheduler returns. -/
theorem grid_retries_bounded :
    (∀ timeout_error : Bool,
        anadama2.run_grid_command_resubmit_runs timeout_error ≤ 3) ∧
    (∀ retryable : Nat → Bool, anadama2.grid_resubmit_loop retryable 0 ≤ 3) := by
  constructor
  · intro b
    cases b <;> decide
  · intro f
    exact grid_resubmit_loop_le_aux f 3 0 (by omega) (by omega)

/-- C4: on the first timeout resubmission (`tries = 1`) `_run_task_slurm`
multiplies the wall-time request by `sigmoid(1/10)*2.7 = 2.7/(1-e^(-1/10))`,
which exceeds 2.7 — outside the contractual factor range `[1, 2.7]`. -/
theorem slurm_time_factor_exceeds_contract : 2.7 < slurm.slurm_time_factor 1 := by
  unfold slurm.slurm_time_factor slurm.sigmoid
  have h0 : (0 : ℝ) < Real.exp (-(((1 : ℕ) : ℝ) / 10)) := Real.exp_pos _
  have h1 : Real.exp (-(((1 : ℕ) : ℝ) / 10)) < 1 := by
    rw [Real.exp_lt_one_iff]
    norm_num
  have hd0 : (0 : ℝ) < 1 - Real.exp (-(((1 : ℕ) : ℝ) / 10)) := by linarith
  have hgt : 1 < 1 / (1 - Real.exp (-(((1 : ℕ) : ℝ) / 10))) :=
    one_lt_one_div hd0 (by linarith)
  nlinarith

/-- C7: a `bjobs` row in state EXIT (fields: jobid, jobindex, stat,
job_name, kill_reason, exit_reason, exit_code, ...) is given the status
string `"EXIT:" + linesp[6]` by `refresh_queue_status`, which neither
`job_failed` nor `job_stopped` recognises, although the bare code `"EXIT"`
is both a failed and a stopped code. -/
theorem lsf_exit_status_not_classified :
    lsf.refresh_row_status
        ["1234", "0", "EXIT", "anadama_job", "", "TERM_RUNLIMIT", "140",
         "start", "120 second(s)", "1", "100000"]
      = "EXIT:140" ∧
    lsf.job_failed "EXIT:140" = false ∧
    lsf.job_stopped "EXIT:140" = false ∧
    lsf.job_failed "EXIT" = true ∧
    lsf.job_stopped "EXIT" = true := by
  decide

/-- In strict mode, a failing dependency resolution leaves behind exactly
the `_handle_nosuchdep` state: last task popped, node `c` (and incident
edges) removed, dependency index untouched (helper, by induction over the
dependency list). -/
theorem resolve_deps_strict_fail (c : Nat) (ds : List anadama.Dep) :
    ∀ (wf wf' : anadama.Workflow) (err : String),
      wf.strict = true →
      anadama.resolve_deps wf c ds = (wf', some err) →
      wf'.tasks = wf.tasks.dropLast ∧
      wf'.dagNodes = wf.dagNodes.erase c ∧
      wf'.dagEdges = wf.dagEdges.filter (fun e => !(e.1 == c || e.2 == c)) ∧
      wf'.depidx = wf.depidx := by
  induction ds with
  | nil =>
    intro wf wf' err hs h
    simp [anadama.resolve_deps] at h
  | cons d rest ih =>
    intro wf wf' err hs h
    cases d with
    | task n =>
      rw [anadama.resolve_deps] at h
      obtain ⟨h1, h2, h3, h4⟩ :=
        ih { wf with dagEdges := wf.dagEdges ++ [(n, c)] } wf' err hs h
      refine ⟨h1, h2, ?_, h4⟩
      rw [h3]
      simp [List.filter_append]
    | trk t =>
      rw [anadama.resolve_deps] at h
      split at h
      · next p _ =>
          obtain ⟨h1, h2, h3, h4⟩ :=
            ih { wf with dagEdges := wf.dagEdges ++ [(p, c)] } wf' err hs h
          refine ⟨h1, h2, ?_, h4⟩
          rw [h3]
          simp [List.filter_append]
      · next _ =>
          split at h
          · exact ih wf wf' err hs h
          · simp only [hs, Bool.not_true, Bool.false_and, Bool.false_eq_true,
              if_false] at h
            unfold anadama.handle_nosuchdep at h
            rw [Prod.mk.injEq] at h
            obtain ⟨hwf, -⟩ := h
            rw [← hwf]
            exact ⟨rfl, rfl, rfl, rfl⟩

/-- C3 (amended): in strict mode (where dependency resolution cannot
auto-register pre-existing objects through `already_exists`), an
`add_task` whose dependency resolution fails with an unknown dependency
raises synchronously and is rolled back: the task list, DAG nodes, DAG
edges and dependency index all equal their values before the call, and no
task is returned.  (The consumed task counter is the only difference.)
In non-strict mode the rollback can pop the wrong task — see the
counterexample. -/
theorem add_task_unknown_dep_rolls_back
    (wf : anadama.Workflow) (name : Option String) (deps : List anadama.Dep)
    (targs : List anadama.Trk)
    (hstrict : wf.strict = true)
    (hnode : wf.task_counter ∉ wf.dagNodes)
    (hedges : ∀ e ∈ wf.dagEdges,
        e.1 ≠ wf.task_counter ∧ e.2 ≠ wf.task_counter) :
    ∀ (wf2 : anadama.Workflow) (ot : Option anadama.Task) (err : String),
      anadama.add_task_named wf name deps targs = (wf2, ot, some err) →
      wf2.tasks = wf.tasks ∧ wf2.dagNodes = wf.dagNodes ∧
      wf2.dagEdges = wf.dagEdges ∧ wf2.depidx = wf.depidx ∧ ot = none := by
  intro wf2 ot err h
  rw [anadama.add_task_named] at h
  split at h
  · next wfr err' heq =>
      rw [Prod.mk.injEq, Prod.mk.injEq] at h
      obtain ⟨hw, hot, -⟩ := h
      obtain ⟨h1, h2, h3, h4⟩ :=
        resolve_deps_strict_fail wf.task_counter deps
          { wf with task_counter := wf.task_counter + 1,
                    tasks := wf.tasks ++
                      [{ name := anadama.build_name name wf.task_counter,
                         task_no := wf.task_counter, depends := deps,
                         targets := targs }],
                    dagNodes := wf.dagNodes ++ [wf.task_counter] }
          wfr err' hstrict heq
      subst hw
      refine ⟨?_, ?_, ?_, h4, hot.symm⟩
      · rw [h1]
        simp
      · rw [h2]
        show (wf.dagNodes ++ [wf.task_counter]).erase wf.task_counter = _
        rw [List.erase_append_right _ hnode, List.erase_cons_head,
          List.append_nil]
      · rw [h3]
        show wf.dagEdges.filter _ = wf.dagEdges
        rw [List.filter_eq_self]
        intro e he
        have := hedges e he
        simp only [Bool.not_eq_true', Bool.or_eq_false_iff, beq_eq_false_iff_ne]
        exact this
  · next wfr heq =>
      rw [Prod.mk.injEq, Prod.mk.injEq] at h
      exact absurd h.2.2 (by simp)

/-- Witness for the amended C3: a strict workflow, one unknown
dependency; the call raises and the task list is unchanged. -/
theorem add_task_unknown_dep_rolls_back_witness :
    examples.wfStrict.strict = true ∧
    0 ∉ examples.wfStrict.dagNodes ∧
    (anadama.add_task_named examples.wfStrict (some "T")
        [examples.depMissing] []).1.tasks = examples.wfStrict.tasks :=
  ⟨rfl, by decide,
   (add_task_unknown_dep_rolls_back examples.wfStrict (some "T")
      [examples.depMissing] [] rfl (by decide) (by decide)
      { examples.wfStrict with task_counter := 1 } none
      "Unable to find dependency `missing'" (by decide)).1⟩

/-- C3 (counterexample): in non-strict mode, resolving the first
dependency (which exists on disk) auto-registers a no-op task via
`already_exists`; when the second dependency then fails,
`_handle_nosuchdep`'s `tasks.pop()` removes that no-op task instead of
the newly created task, which stays in the task list — so the claimed
rollback does not happen. -/
theorem add_task_unknown_dep_not_rolled_back :
    (anadama.add_task_named examples.wfNonstrict (some "T")
        [examples.depOnDisk, examples.depMissing] []).2.2.isSome = true ∧
    (anadama.add_task_named examples.wfNonstrict (some "T")
        [examples.depOnDisk, examples.depMissing] []).1.tasks
      = [{ name := "T", task_no := 0,
           depends := [examples.depOnDisk, examples.depMissing],
           targets := [] }] := by
  decide

/-- C8 (counterexample): registering a second task with the name "A"
already borne by a registered task succeeds — neither `add_task` nor
`_build_name` nor `_add_task` checks name uniqueness — leaving two tasks
named "A" in the task list. -/
theorem duplicate_task_name_accepted_concrete :
    (anadama.add_task_named examples.wfStrict (some "A") [] []).2.2 = none ∧
    (anadama.add_task_named examples.wfA (some "A") [] []).2.2 = none ∧
    ((anadama.add_task_named examples.wfA (some "A") [] []).1).tasks.map
        anadama.Task.name = ["A", "A"] := by
  decide

/-- C8 (amended): a registration whose non-empty name equals the name of
an already-registered task is not rejected: a dependency-free `add_task`
succeeds, appends the task with a fresh task number, and leaves the
previously registered tasks untouched.  (The code itself relies on this:
every `already_exists` call registers a task named
"Track pre-existing dependencies".) -/
theorem duplicate_task_name_accepted
    (wf : anadama.Workflow) (name : String) (targs : List anadama.Trk)
    (hne : name.isEmpty = false)
    (hdup : name ∈ wf.tasks.map anadama.Task.name) :
    (anadama.add_task_named wf (some name) [] targs).2.2 = none ∧
    ((anadama.add_task_named wf (some name) [] targs).1).tasks
      = wf.tasks ++ [{ name := name, task_no := wf.task_counter,
                       depends := [], targets := targs }] := by
  refine ⟨rfl, ?_⟩
  show wf.tasks ++ [{ name := anadama.build_name (some name) wf.task_counter,
                      task_no := wf.task_counter, depends := [],
                      targets := targs }]
      = wf.tasks ++ [{ name := name, task_no := wf.task_counter,
                       depends := [], targets := targs }]
  simp [anadama.build_name, hne]

/-- Witness for the amended C8 at a workflow already holding a task named
"A". -/
theorem duplicate_task_name_accepted_witness :
    ("A" : String).isEmpty = false ∧
    "A" ∈ examples.wfA.tasks.map anadama.Task.name ∧
    (anadama.add_task_named examples.wfA (some "A") [] []).2.2 = none :=
  ⟨rfl, by decide,
   (duplicate_task_name_accepted examples.wfA "A" [] rfl (by decide)).1⟩

/-- C9: a job id that prefixes no row of the cached queue status yields
the single sentinel row `[jobid, "Waiting", "NA", "NA", "NA"]`, and
`get_job_status` answers "Waiting" instead of raising. -/
theorem get_job_status_unknown_jobid_waiting
    (sacct : List (List String)) (jobid : String)
    (h : ∀ row ∈ sacct, anadama2.pyStartswith (row.headD "") jobid = false) :
    anadama2.get_all_stats_for_jobid sacct jobid
      = [[jobid, "Waiting", "NA", "NA", "NA"]] ∧
    anadama2.get_job_status sacct jobid = "Waiting" := by
  have hf : sacct.filter (fun x => anadama2.pyStartswith (x.headD "") jobid) = [] := by
    rw [List.filter_eq_nil_iff]
    intro a ha
    show ¬anadama2.pyStartswith (a.headD "") jobid = true
    rw [h a ha]
    simp
  have h1 : anadama2.get_all_stats_for_jobid sacct jobid
      = [[jobid, "Waiting", "NA", "NA", "NA"]] := by
    unfold anadama2.get_all_stats_for_jobid
    rw [hf]
    rfl
  refine ⟨h1, ?_⟩
  unfold anadama2.get_job_status
  rw [h1]
  rfl

/-- Witness for C9 at a concrete queue snapshot and job id. -/
theorem get_job_status_unknown_jobid_waiting_witness :
    (∀ row ∈ examples.sacctExample,
        anadama2.pyStartswith (row.headD "") "99" = false) ∧
    anadama2.get_job_status examples.sacctExample "99" = "Waiting" :=
  ⟨by decide,
   (get_job_status_unknown_jobid_waiting examples.sacctExample "99" (by decide)).2⟩

/-- C5: an empty or non-numeric job id is flagged by
`job_submission_failed`; `check_submission_then_monitor_grid_job` then
never enters the polling loop, reports status "SUBMIT FAILED", and the
task fails with an error containing "Unable to submit job to queue"; and
since neither the timeout nor the memkill classifier accepts
"SUBMIT FAILED", `run_task_command` performs exactly one submission. -/
theorem submission_failure_immediate
    (jobid : String) (base : anadama.TaskResult)
    (mon : anadama.TaskResult × String)
    (jobidOf monStatus : Nat → String) (timeoutP memkillP : String → Bool)
    (hid : anadama2.pyIsdigit jobid = false)
    (h0 : jobidOf 0 = jobid)
    (hT : timeoutP "SUBMIT FAILED" = false)
    (hM : memkillP "SUBMIT FAILED" = false) :
    anadama2.job_submission_failed jobid = true ∧
    (anadama2.check_submission_then_monitor mon base jobid).2.2 = false ∧
    (anadama2.check_submission_then_monitor mon base jobid).2.1
      = "SUBMIT FAILED" ∧
    (∃ pre post : String,
        anadama.pyStrOpt
            (anadama2.check_submission_then_monitor mon base jobid).1.error
          = pre ++ "Unable to submit job to queue" ++ post) ∧
    anadama2.run_task_command_submissions jobidOf monStatus timeoutP memkillP
      = 1 := by
  have hfail : anadama2.job_submission_failed jobid = true := by
    simp [anadama2.job_submission_failed, hid]
  have hbranch :
      anadama2.check_submission_then_monitor mon base jobid
        = ({ base with error := some (anadama.pyStrOpt base.error
              ++ "Unable to submit job to queue.") }, "SUBMIT FAILED", false) := by
    simp [anadama2.check_submission_then_monitor, hfail]
  have hs0 : anadama2.final_status_of jobidOf monStatus 0 = "SUBMIT FAILED" := by
    simp [anadama2.final_status_of, h0, hfail]
  refine ⟨hfail, by rw [hbranch], by rw [hbranch], ?_, ?_⟩
  · refine ⟨anadama.pyStrOpt base.error, ".", ?_⟩
    rw [hbranch]
    show anadama.pyStrOpt base.error ++ "Unable to submit job to queue."
        = anadama.pyStrOpt base.error ++ "Unable to submit job to queue" ++ "."
    rw [String.append_assoc]
    have hlit : ("Unable to submit job to queue" ++ "." : String)
        = "Unable to submit job to queue." := by decide
    rw [hlit]
  · unfold anadama2.run_task_command_submissions
    rw [anadama2.grid_resubmit_loop, dif_neg (by simp [hs0, hT, hM])]

/-- Witness for C5 at the concrete job id "error" (what `submit_job`
produces when stdout is unusable). -/
theorem submission_failure_immediate_witness :
    anadama2.pyIsdigit "error" = false ∧
    (anadama2.check_submission_then_monitor examples.monitorOutcome
        examples.okResult "error").2.2 = false ∧
    anadama2.run_task_command_submissions (fun _ => "error") (fun _ => "DONE")
        (fun _ => false) (fun _ => false) = 1 :=
  ⟨by decide,
   (submission_failure_immediate "error" examples.okResult
      examples.monitorOutcome (fun _ => "error") (fun _ => "DONE")
      (fun _ => false) (fun _ => false) (by decide) rfl rfl rfl).2.1,
   (submission_failure_immediate "error" examples.okResult
      examples.monitorOutcome (fun _ => "error") (fun _ => "DONE")
      (fun _ => false) (fun _ => false) (by decide) rfl rfl rfl).2.2.2.2⟩

/-- C6: handling a result whose error is non-empty adds the task to the
failed set and leaves the fingerprint backend and completed set
untouched; skipping a task leaves the backend untouched while adding the
task to the completed set, reporting it skipped and executing no actions;
and handling a result whose error is empty extends the backend. -/
theorem backend_written_only_on_success
    (st : anadama.RunState) (failres okres : anadama.TaskResult)
    (task_no : Nat)
    (hfail : anadama.pyTruthyOpt failres.error = true)
    (hok : anadama.pyTruthyOpt okres.error = false) :
    (anadama.handle_task_result st failres).backendSaves = st.backendSaves ∧
    (anadama.handle_task_result st failres).failed_tasks
      = st.failed_tasks ++ [failres.task_no] ∧
    (anadama.handle_task_result st failres).completed_tasks
      = st.completed_tasks ∧
    (anadama.handle_task_skipped st task_no).backendSaves = st.backendSaves ∧
    (anadama.handle_task_skipped st task_no).completed_tasks
      = st.completed_tasks ++ [some task_no] ∧
    (anadama.handle_task_skipped st task_no).events
      = st.events ++ [anadama.Event.task_skipped task_no] ∧
    (anadama.handle_task_skipped st task_no).actions_executed
      = st.actions_executed ∧
    (anadama.handle_task_result st okres).backendSaves.take
        st.backendSaves.length = st.backendSaves ∧
    st.backendSaves.length
      < (anadama.handle_task_result st okres).backendSaves.length := by
  refine ⟨?_, ?_, ?_, rfl, rfl, rfl, rfl, ?_, ?_⟩
  · unfold anadama.handle_task_result
    cases failres.task_no <;> simp [hfail]
  · unfold anadama.handle_task_result
    cases failres.task_no <;> simp [hfail]
  · unfold anadama.handle_task_result
    cases failres.task_no <;> simp [hfail]
  · unfold anadama.handle_task_result
    cases okres.task_no with
    | none =>
      simp only [hok, Bool.false_eq_true, if_false]
      simp
    | some n =>
      simp only [hok, Bool.false_eq_true, if_false]
      split
      · simp
      · simp [List.append_assoc]
  · unfold anadama.handle_task_result
    cases okres.task_no with
    | none =>
      simp only [hok, Bool.false_eq_true, if_false]
      simp
    | some n =>
      simp only [hok, Bool.false_eq_true, if_false]
      split
      · simp
      · simp

/-- Witness for C6 at a concrete run state, a failed result, a skipped
task and a successful result. -/
theorem backend_written_only_on_success_witness :
    anadama.pyTruthyOpt examples.failedResult.error = true ∧
    anadama.pyTruthyOpt examples.okResult.error = false ∧
    (anadama.handle_task_result examples.st0 examples.failedResult).backendSaves
      = examples.st0.backendSaves ∧
    (anadama.handle_task_skipped examples.st0 5).backendSaves
      = examples.st0.backendSaves :=
  ⟨by decide, by decide,
   (backend_written_only_on_success examples.st0 examples.failedResult
      examples.okResult 5 (by decide) (by decide)).1,
   (backend_written_only_on_success examples.st0 examples.failedResult
      examples.okResult 5 (by decide) (by decide)).2.2.2.1⟩

/-- C10: a falsy element (None or an empty string) anywhere in the
actions, depends or targets argument is dropped by the `_build_*`
normalisers before the task is constructed, and `add_task` returns a
decorator exactly when the actions argument itself is falsy (None, empty
string or empty list). -/
theorem add_task_falsy_normalisation
    (vs ws : List anadama.PyV) (v : anadama.PyV)
    (actions depends targets : anadama.PyArg)
    (hv : anadama.pyvTruthy v = false)
    (ht : (anadama.sugar_list targets).any anadama.rawIstask = false) :
    anadama.build_actions (anadama.PyArg.pylist (vs ++ v :: ws))
      = anadama.build_actions (anadama.PyArg.pylist (vs ++ ws)) ∧
    anadama.build_depends (anadama.PyArg.pylist (vs ++ v :: ws))
      = anadama.build_depends (anadama.PyArg.pylist (vs ++ ws)) ∧
    anadama.build_targets (anadama.PyArg.pylist (vs ++ v :: ws))
      = anadama.build_targets (anadama.PyArg.pylist (vs ++ ws)) ∧
    (anadama.add_task_outcome actions depends targets
        = Except.ok anadama.AddTaskOutcome.decorator
      ↔ anadama.pyArgTruthy actions = false) := by
  have hfilter : (vs ++ v :: ws).filter anadama.pyvTruthy
      = (vs ++ ws).filter anadama.pyvTruthy := by
    simp [List.filter_append, List.filter_cons, hv]
  have hfilter_any :
      ((anadama.sugar_list targets).filter anadama.pyvTruthy).any
          anadama.rawIstask = false := by
    rw [List.any_eq_false] at ht ⊢
    intro x hx
    exact ht x (List.mem_of_mem_filter hx)
  have htargs : anadama.build_targets targets
      = Except.ok (((anadama.sugar_list targets).filter
          anadama.pyvTruthy).map anadama.auto) := by
    simp [anadama.build_targets, hfilter_any]
  refine ⟨?_, ?_, ?_, ?_⟩
  · unfold anadama.build_actions anadama.sugar_list
    rw [hfilter]
  · unfold anadama.build_depends anadama.sugar_list
    rw [hfilter]
  · simp only [anadama.build_targets, anadama.sugar_list, hfilter]
  · simp only [anadama.add_task_outcome, htargs]
    cases hA : anadama.pyArgTruthy actions <;> simp [hA]

/-- Witness for C10: dropping a `None` from a depends list, and a falsy
actions argument producing a decorator. -/
theorem add_task_falsy_normalisation_witness :
    anadama.pyvTruthy anadama.PyV.pynone = false ∧
    (anadama.sugar_list
        (anadama.PyArg.pylist [anadama.PyV.pystr "t.txt"])).any
      anadama.rawIstask = false ∧
    anadama.add_task_outcome (anadama.PyArg.scalar anadama.PyV.pynone)
        (anadama.PyArg.pylist [anadama.PyV.pystr "a", anadama.PyV.pynone])
        (anadama.PyArg.pylist [anadama.PyV.pystr "t.txt"])
      = Except.ok anadama.AddTaskOutcome.decorator ∧
    anadama.build_depends (anadama.PyArg.pylist
        [anadama.PyV.pystr "a", anadama.PyV.pynone, anadama.PyV.pystr "b"])
      = anadama.build_depends (anadama.PyArg.pylist
        [anadama.PyV.pystr "a", anadama.PyV.pystr "b"]) :=
  ⟨rfl, by decide,
   (add_task_falsy_normalisation [anadama.PyV.pystr "a"]
      [anadama.PyV.pystr "b"] anadama.PyV.pynone
      (anadama.PyArg.scalar anadama.PyV.pynone)
      (anadama.PyArg.pylist [anadama.PyV.pystr "a", anadama.PyV.pynone])
      (anadama.PyArg.pylist [anadama.PyV.pystr "t.txt"]) rfl
      (by decide)).2.2.2.mpr (by decide),
   (add_task_falsy_normalisation [anadama.PyV.pystr "a"]
      [anadama.PyV.pystr "b"] anadama.PyV.pynone
      (anadama.PyArg.scalar anadama.PyV.pynone)
      (anadama.PyArg.pylist [anadama.PyV.pystr "a", anadama.PyV.pynone])
      (anadama.PyArg.pylist [anadama.PyV.pystr "t.txt"]) rfl
      (by decide)).2.1⟩

